import Mathlib

/-!
Verification development for the GtkStatusbar message stack
(src/gtk/gtkstatusbar.c) and the GtkColorScale trough rendering helper
(src/gtk/gtkcolorscale.c).

The statusbar is modelled as a pure state structure; every C function that
mutates the widget becomes a Lean function returning the updated state
together with its return value or the payload of the signal it emits.
The guint sequence counters of the C code wrap at 2^32, which the model
keeps via an explicit modulus.
-/

/-- Modulus of the C guint type: the seq_context_id and seq_message_id
counters of GtkStatusbarPrivate are 32-bit unsigned integers. -/
def UINT_MOD : Nat := 2 ^ 32

/-- Mirror of struct _GtkStatusbarMsg in gtkstatusbar.c: a stored message. -/
structure GtkStatusbarMsg where
  text : String
  context_id : Nat
  message_id : Nat
deriving DecidableEq

/-- Mirror of GtkStatusbarPrivate together with the observable widget state:
label is the text shown by priv-label, messages and keys are the GSLists,
object_data is the per-object data table used by g_object_set_data /
g_object_get_data for the context-description keys, and the two counters
are the guint sequence counters. -/
structure GtkStatusbar where
  label : String
  messages : List GtkStatusbarMsg
  keys : List String
  object_data : List (String × Nat)
  seq_context_id : Nat
  seq_message_id : Nat
deriving DecidableEq

/-- Mirror of gtk_statusbar_init: empty lists, both counters start at 1,
the label shows the empty string. -/
def gtk_statusbar_init : GtkStatusbar :=
  { label := ""
    messages := []
    keys := []
    object_data := []
    seq_context_id := 1
    seq_message_id := 1 }

/-- Mirror of g_object_get_data restricted to the uint values the statusbar
stores: looking up an absent key yields the null pointer, i.e. 0. -/
def g_object_get_data (object_data : List (String × Nat)) (key : String) : Nat :=
  match object_data.find? (fun kv => kv.1 == key) with
  | some kv => kv.2
  | none => 0

/-- Mirror of g_object_set_data_full with GUINT_TO_POINTER values: storing 0
stores the null pointer, which removes the association; storing a nonzero
value replaces any previous association for the key. -/
def g_object_set_data (object_data : List (String × Nat)) (key : String) (v : Nat) :
    List (String × Nat) :=
  if v = 0 then object_data.eraseP (fun kv => kv.1 == key)
  else (key, v) :: object_data.eraseP (fun kv => kv.1 == key)

/-- Mirror of gtk_statusbar_update, the default handler of both the
text-pushed and the text-popped signal: it sets the label to the signal
text, rendering a NULL text as the empty string. -/
def gtk_statusbar_update (sb : GtkStatusbar) (_context_id : Nat) (text : Option String) :
    GtkStatusbar :=
  { sb with label := text.getD "" }

/-- Key string built by gtk_statusbar_get_context_id via g_strconcat. -/
def ctxKey (context_description : String) : String :=
  "gtk-status-bar-context:" ++ context_description

/-- Mirror of gtk_statusbar_get_context_id: look the description key up in
the object data; if absent (value 0) assign the next value of the
seq_context_id counter, record it in the object data and remember the key
string on the keys list. Returns the updated statusbar and the id. -/
def gtk_statusbar_get_context_id (sb : GtkStatusbar) (context_description : String) :
    GtkStatusbar × Nat :=
  let string := ctxKey context_description
  let id := g_object_get_data sb.object_data string
  if id = 0 then
    let id := sb.seq_context_id
    ({ sb with
        seq_context_id := (sb.seq_context_id + 1) % UINT_MOD
        object_data := g_object_set_data sb.object_data string id
        keys := string :: sb.keys }, id)
  else
    (sb, id)

/-- Mirror of gtk_statusbar_msg_create: copy the text, stamp the message
with the context id and the next value of the seq_message_id counter. -/
def gtk_statusbar_msg_create (sb : GtkStatusbar) (context_id : Nat) (text : String) :
    GtkStatusbarMsg × GtkStatusbar :=
  (⟨text, context_id, sb.seq_message_id⟩,
   { sb with seq_message_id := (sb.seq_message_id + 1) % UINT_MOD })

/-- Mirror of gtk_statusbar_push: create a message, prepend it to the
message stack, emit text-pushed (whose default handler sets the label to
the pushed text) and return the new message id. -/
def gtk_statusbar_push (sb : GtkStatusbar) (context_id : Nat) (text : String) :
    GtkStatusbar × Nat :=
  let (msg, sb) := gtk_statusbar_msg_create sb context_id text
  let sb := { sb with messages := msg :: sb.messages }
  let sb := gtk_statusbar_update sb msg.context_id (some msg.text)
  (sb, msg.message_id)

/-- Removal of the first list element satisfying a predicate, mirroring the
g_slist_remove_link loops of gtkstatusbar.c (which break after the first
match and leave the list unchanged when nothing matches). -/
def removeFirstBy (p : α → Bool) : List α → List α
  | [] => []
  | a :: as => if p a then as else a :: removeFirstBy p as

/-- Payload of the text-popped signal as emitted at the end of
gtk_statusbar_pop: the context id and text of the new topmost message, or
context id 0 and NULL (none) when the stack is empty. -/
def popSignal (messages : List GtkStatusbarMsg) : Nat × Option String :=
  match messages.head? with
  | some msg => (msg.context_id, some msg.text)
  | none => (0, none)

/-- Mirror of gtk_statusbar_pop: remove the first message whose context id
matches, then emit text-popped with the new topmost message (or 0 and NULL
on an empty stack); the default handler sets the label accordingly. -/
def gtk_statusbar_pop (sb : GtkStatusbar) (context_id : Nat) :
    GtkStatusbar × (Nat × Option String) :=
  let messages := removeFirstBy (fun m => m.context_id == context_id) sb.messages
  let sig := popSignal messages
  let sb := { sb with messages := messages }
  let sb := gtk_statusbar_update sb sig.1 sig.2
  (sb, sig)

/-- Mirror of gtk_statusbar_remove: a message id of 0 fails the
g_return_if_fail guard and nothing happens; if the topmost message matches
both ids the function delegates to gtk_statusbar_pop (so the signal is
emitted); otherwise the first message matching both ids is unlinked without
any signal. The second component is the emitted text-popped payload, when
one was emitted. -/
def gtk_statusbar_remove (sb : GtkStatusbar) (context_id : Nat) (message_id : Nat) :
    GtkStatusbar × Option (Nat × Option String) :=
  if message_id = 0 then (sb, none)
  else
    match sb.messages.head? with
    | none => (sb, none)
    | some msg =>
      if msg.context_id == context_id && msg.message_id == message_id then
        let (sb, sig) := gtk_statusbar_pop sb context_id
        (sb, some sig)
      else
        ({ sb with
            messages := removeFirstBy
              (fun m => m.context_id == context_id && m.message_id == message_id)
              sb.messages }, none)

/-- Mirror of gtk_statusbar_remove_all: on an empty stack return at once;
otherwise the while loop unlinks every message after the topmost one whose
context id matches, and finally, when the topmost message itself matches,
the function delegates to gtk_statusbar_pop (which removes it and emits
text-popped). The second component is the emitted payload, when any. -/
def gtk_statusbar_remove_all (sb : GtkStatusbar) (context_id : Nat) :
    GtkStatusbar × Option (Nat × Option String) :=
  match sb.messages with
  | [] => (sb, none)
  | top :: rest =>
    let sb := { sb with
      messages := top :: rest.filter (fun m => !(m.context_id == context_id)) }
    if top.context_id == context_id then
      let (sb, sig) := gtk_statusbar_pop sb context_id
      (sb, some sig)
    else
      (sb, none)

/-!
Model of gtk_color_scale_snapshot_trough (src/gtk/gtkcolorscale.c).
Real-valued gdouble computations are modelled over the rationals. The
external conversion gtk_hsv_to_rgb (from gtkcolorutils.c, not part of the
sources under verification) is a parameter of the model; it is a pure
function of its three arguments.
-/

/-- Mirror of GdkRGBA with rational channels. -/
structure GdkRGBA where
  red : ℚ
  green : ℚ
  blue : ℚ
  alpha : ℚ
deriving DecidableEq

/-- Mirror of GtkColorScaleType: GTK_COLOR_SCALE_HUE and
GTK_COLOR_SCALE_ALPHA. -/
inductive GtkColorScaleType where
  | hue
  | alpha
deriving DecidableEq

/-- Mirror of GtkColorScalePrivate: the currently set color and the scale
type. -/
structure GtkColorScale where
  color : GdkRGBA
  type : GtkColorScaleType
deriving DecidableEq

/-- GtkOrientation values relevant to the trough rendering. -/
inductive GtkOrientation where
  | horizontal
  | vertical
deriving DecidableEq

/-- GtkTextDirection values relevant to the trough rendering. -/
inductive GtkTextDirection where
  | ltr
  | rtl
deriving DecidableEq

/-- Mirror of graphene_point_init points. -/
structure GraphenePoint where
  px : ℚ
  py : ℚ
deriving DecidableEq

/-- Mirror of GRAPHENE_RECT_INIT rectangles. -/
structure GrapheneRect where
  rx : ℚ
  ry : ℚ
  rw : ℚ
  rh : ℚ
deriving DecidableEq

/-- Mirror of GskColorStop: an offset and a color. -/
structure GskColorStop where
  offset : ℚ
  color : GdkRGBA
deriving DecidableEq

/-- One drawing operation appended to the snapshot by
gtk_color_scale_snapshot_trough. The hue branch appends a memory texture
whose pixel rows are byte triples; the alpha branch first paints the
checkerboard backdrop through a cairo node (whose exact pixel content is
abstracted here) and then appends a two-stop linear gradient. -/
inductive RenderNode where
  | texture (width height : ℤ) (rows : List (List (Nat × Nat × Nat))) (rect : GrapheneRect)
  | cairoCheckered (rect : GrapheneRect)
  | linearGradient (rect : GrapheneRect) (startPoint endPoint : GraphenePoint)
      (stops : List GskColorStop)
deriving DecidableEq

/-- Mirror of the glib CLAMP macro. -/
def CLAMP (x low high : ℚ) : ℚ :=
  if x > high then high else if x < low then low else x

/-- Conversion of a clamped gdouble channel to a guchar pixel byte: the
C assignment to guchar truncates the value CLAMP (v * 255) 0 255 toward
zero. -/
def toByte (v : ℚ) : Nat :=
  (CLAMP (v * 255) 0 255).floor.toNat

/-- One row of the hue texture: the inner loop of the hue branch walks the
stride in steps of 3 bytes and stores, for every pixel of the row, the
HSV-to-RGB conversion of the row's hue with saturation 1 and value 1. -/
def hueRow (hsv2rgb : ℚ → ℚ → ℚ → ℚ × ℚ × ℚ) (h : ℚ) (width : Nat) :
    List (Nat × Nat × Nat) :=
  (List.range width).map (fun _ =>
    match hsv2rgb h 1 1 with
    | (r, g, b) => (toByte r, toByte g, toByte b))

/-- Hue of texture row hue_y as computed by the hue branch:
CLAMP (hue_y * (1 / (height - 1))) 0 1. -/
def hueH (height : ℤ) (hue_y : Nat) : ℚ :=
  CLAMP ((hue_y : ℚ) * (1 / ((height : ℚ) - 1))) 0 1

/-- The pixel byte triple shared by every pixel of a hue texture row. -/
def huePixel (hsv2rgb : ℚ → ℚ → ℚ → ℚ × ℚ × ℚ) (h : ℚ) : Nat × Nat × Nat :=
  match hsv2rgb h 1 1 with
  | (r, g, b) => (toByte r, toByte g, toByte b)

/-- Mirror of gtk_color_scale_snapshot_trough: returns the list of drawing
operations appended to the snapshot. Degenerate sizes (width or height at
most 1) return without drawing. The hue branch builds a width-by-height
RGB texture row by row; the alpha branch paints the checkerboard and
appends the two-stop alpha gradient, swapping the gradient start and end
points for a horizontal widget in right-to-left text direction. -/
def gtk_color_scale_snapshot_trough (hsv2rgb : ℚ → ℚ → ℚ → ℚ × ℚ × ℚ)
    (scale : GtkColorScale) (orientation : GtkOrientation) (dir : GtkTextDirection)
    (x y width height : ℤ) : List RenderNode :=
  if width ≤ 1 ∨ height ≤ 1 then []
  else if scale.type = GtkColorScaleType.hue then
    let f : ℚ := 1 / ((height : ℚ) - 1)
    let rows := (List.range height.toNat).map (fun (hue_y : Nat) =>
      hueRow hsv2rgb (CLAMP ((hue_y : ℚ) * f) 0 1) width.toNat)
    [RenderNode.texture width height rows
      ⟨(x : ℚ), (y : ℚ), (width : ℚ), (height : ℚ)⟩]
  else if scale.type = GtkColorScaleType.alpha then
    let pts :=
      if orientation = GtkOrientation.horizontal ∧ dir = GtkTextDirection.rtl then
        (GraphenePoint.mk ((x : ℚ) + (width : ℚ)) (y : ℚ),
         GraphenePoint.mk (x : ℚ) (y : ℚ))
      else
        (GraphenePoint.mk (x : ℚ) (y : ℚ),
         GraphenePoint.mk ((x : ℚ) + (width : ℚ)) (y : ℚ))
    let color := scale.color
    [RenderNode.cairoCheckered ⟨(x : ℚ), (y : ℚ), (width : ℚ), (height : ℚ)⟩,
     RenderNode.linearGradient ⟨(x : ℚ), (y : ℚ), (width : ℚ), (height : ℚ)⟩
       pts.1 pts.2
       [⟨0, ⟨color.red, color.green, color.blue, 0⟩⟩,
        ⟨1, ⟨color.red, color.green, color.blue, 1⟩⟩]]
  else []

/-- Mirror of gtk_color_scale_set_rgba: store the color (the queued redraw
has no model state). -/
def gtk_color_scale_set_rgba (scale : GtkColorScale) (color : GdkRGBA) : GtkColorScale :=
  { scale with color := color }

/-!
Basic equations and helper lemmas about the statusbar operations.
-/

theorem gtk_statusbar_push_eq (sb : GtkStatusbar) (context_id : Nat) (text : String) :
    gtk_statusbar_push sb context_id text =
      ({ sb with
          label := text
          messages := ⟨text, context_id, sb.seq_message_id⟩ :: sb.messages
          seq_message_id := (sb.seq_message_id + 1) % UINT_MOD }, sb.seq_message_id) :=
  rfl

theorem gtk_statusbar_pop_eq (sb : GtkStatusbar) (context_id : Nat) :
    gtk_statusbar_pop sb context_id =
      ({ sb with
          messages := removeFirstBy (fun m => m.context_id == context_id) sb.messages
          label := (popSignal
            (removeFirstBy (fun m => m.context_id == context_id) sb.messages)).2.getD "" },
       popSignal (removeFirstBy (fun m => m.context_id == context_id) sb.messages)) :=
  rfl

@[simp]
theorem popSignal_snd (messages : List GtkStatusbarMsg) :
    (popSignal messages).2 = messages.head?.map GtkStatusbarMsg.text := by
  cases messages <;> rfl

theorem removeFirstBy_sublist (p : α → Bool) (l : List α) :
    List.Sublist (removeFirstBy p l) l := by
  induction l with
  | nil => exact List.Sublist.refl _
  | cons a as ih =>
    rw [removeFirstBy]
    by_cases h : p a
    · simp only [h, if_true]
      exact (List.Sublist.refl as).cons a
    · simp only [h, if_false, Bool.false_eq_true]
      exact ih.cons₂ a

theorem removeFirstBy_spec (p : α → Bool) (l : List α) :
    ((∀ a ∈ l, p a = false) ∧ removeFirstBy p l = l) ∨
    ∃ l₁ x l₂, l = l₁ ++ x :: l₂ ∧ (∀ a ∈ l₁, p a = false) ∧ p x = true ∧
      removeFirstBy p l = l₁ ++ l₂ := by
  induction l with
  | nil => left; exact ⟨by simp, rfl⟩
  | cons a as ih =>
    by_cases h : p a
    · right
      exact ⟨[], a, as, rfl, by simp, h, by simp [removeFirstBy, h]⟩
    · have hfalse : p a = false := by simpa using h
      rcases ih with ⟨hall, heq⟩ | ⟨l₁, x, l₂, hsplit, hl₁, hx, heq⟩
      · left
        refine ⟨?_, by simp [removeFirstBy, hfalse, heq]⟩
        intro b hb
        rcases List.mem_cons.mp hb with rfl | hb
        · exact hfalse
        · exact hall b hb
      · right
        refine ⟨a :: l₁, x, l₂, by rw [hsplit]; rfl, ?_, hx,
          by simp [removeFirstBy, hfalse, heq]⟩
        intro b hb
        rcases List.mem_cons.mp hb with rfl | hb
        · exact hfalse
        · exact hl₁ b hb

theorem gtk_statusbar_remove_messages (sb : GtkStatusbar) (context_id message_id : Nat)
    (h : message_id ≠ 0) :
    (gtk_statusbar_remove sb context_id message_id).1.messages =
      removeFirstBy (fun m => m.context_id == context_id && m.message_id == message_id)
        sb.messages := by
  unfold gtk_statusbar_remove
  cases hm : sb.messages with
  | nil => simp [h, hm, removeFirstBy]
  | cons top rest =>
    by_cases htop : (top.context_id == context_id && top.message_id == message_id) = true
    · have h₁ : top.context_id = context_id ∧ top.message_id = message_id := by
        simpa using htop
      simp [h, hm, htop, gtk_statusbar_pop_eq, removeFirstBy, h₁.1, h₁.2]
    · simp [h, hm, htop, removeFirstBy]

/-- States of a statusbar reachable from gtk_statusbar_init through the
public operations, indexed by the number of pushes performed and the
number of gtk_statusbar_get_context_id calls made. -/
inductive StatusbarReach : Nat → Nat → GtkStatusbar → Prop where
  | init : StatusbarReach 0 0 gtk_statusbar_init
  | push {p c : Nat} {s : GtkStatusbar} (context_id : Nat) (text : String) :
      StatusbarReach p c s →
      StatusbarReach (p + 1) c (gtk_statusbar_push s context_id text).1
  | pop {p c : Nat} {s : GtkStatusbar} (context_id : Nat) :
      StatusbarReach p c s → StatusbarReach p c (gtk_statusbar_pop s context_id).1
  | remove {p c : Nat} {s : GtkStatusbar} (context_id message_id : Nat) :
      StatusbarReach p c s →
      StatusbarReach p c (gtk_statusbar_remove s context_id message_id).1
  | removeAll {p c : Nat} {s : GtkStatusbar} (context_id : Nat) :
      StatusbarReach p c s →
      StatusbarReach p c (gtk_statusbar_remove_all s context_id).1
  | getContextId {p c : Nat} {s : GtkStatusbar} (context_description : String) :
      StatusbarReach p c s →
      StatusbarReach p (c + 1) (gtk_statusbar_get_context_id s context_description).1

/-- Statement that the label shows the text of the topmost message, an
empty stack being rendered as the empty string. -/
def LabelTop (sb : GtkStatusbar) : Prop :=
  sb.label = (sb.messages.head?.map GtkStatusbarMsg.text).getD ""

theorem LabelTop_push (sb : GtkStatusbar) (context_id : Nat) (text : String) :
    LabelTop (gtk_statusbar_push sb context_id text).1 := by
  simp [LabelTop, gtk_statusbar_push_eq]

theorem LabelTop_pop (sb : GtkStatusbar) (context_id : Nat) :
    LabelTop (gtk_statusbar_pop sb context_id).1 := by
  simp [LabelTop, gtk_statusbar_pop_eq]

theorem LabelTop_remove (sb : GtkStatusbar) (context_id message_id : Nat)
    (h : LabelTop sb) : LabelTop (gtk_statusbar_remove sb context_id message_id).1 := by
  unfold gtk_statusbar_remove
  by_cases h0 : message_id = 0
  · simpa [h0] using h
  · cases hm : sb.messages with
    | nil => simp [LabelTop, h0, hm]; simpa [LabelTop, hm] using h
    | cons top rest =>
      by_cases htop : (top.context_id == context_id && top.message_id == message_id) = true
      · have h₁ : top.context_id = context_id ∧ top.message_id = message_id := by
          simpa using htop
        simp [LabelTop, h0, hm, htop, h₁.1, h₁.2, gtk_statusbar_pop_eq]
      · simp [LabelTop, h0, hm, htop, removeFirstBy]
        simpa [LabelTop, hm] using h

theorem LabelTop_remove_all (sb : GtkStatusbar) (context_id : Nat)
    (h : LabelTop sb) : LabelTop (gtk_statusbar_remove_all sb context_id).1 := by
  unfold gtk_statusbar_remove_all
  cases hm : sb.messages with
  | nil => simp [LabelTop, hm]; simpa [LabelTop, hm] using h
  | cons top rest =>
    by_cases htop : (top.context_id == context_id) = true
    · simp [LabelTop, hm, htop, gtk_statusbar_pop_eq]
    · simp [LabelTop, hm, htop]
      simpa [LabelTop, hm] using h

theorem LabelTop_get_context_id (sb : GtkStatusbar) (context_description : String)
    (h : LabelTop sb) : LabelTop (gtk_statusbar_get_context_id sb context_description).1 := by
  unfold gtk_statusbar_get_context_id
  by_cases hz : g_object_get_data sb.object_data (ctxKey context_description) = 0 <;>
    simpa [LabelTop, hz] using h

/-- In every reachable state the label shows the text of the topmost
message, an empty stack being rendered as the empty string. -/
theorem label_eq_top {p c : Nat} {s : GtkStatusbar} (h : StatusbarReach p c s) :
    s.label = (s.messages.head?.map GtkStatusbarMsg.text).getD "" := by
  induction h with
  | init => rfl
  | push context_id text hr ih => exact LabelTop_push _ context_id text
  | pop context_id hr ih => exact LabelTop_pop _ context_id
  | remove context_id message_id hr ih => exact LabelTop_remove _ context_id message_id ih
  | removeAll context_id hr ih => exact LabelTop_remove_all _ context_id ih
  | getContextId context_description hr ih =>
    exact LabelTop_get_context_id _ context_description ih

/-- Claim C1: for every statusbar state and every non-NULL text,
gtk_statusbar_push creates a new message carrying the given context id and
text and prepends it at the top of the message stack, leaving every
previously stored message unchanged below it; and in every reachable state
the displayed label text is the text of the topmost message on the stack,
a NULL text being rendered as the empty string. -/
theorem statusbar_push_stacking :
    (∀ (sb : GtkStatusbar) (context_id : Nat) (text : String),
      (gtk_statusbar_push sb context_id text).1.messages =
        ⟨text, context_id, sb.seq_message_id⟩ :: sb.messages) ∧
    ∀ (p c : Nat) (s : GtkStatusbar), StatusbarReach p c s →
      s.label = (s.messages.head?.map GtkStatusbarMsg.text).getD "" := by
  constructor
  · intro sb context_id text
    rw [gtk_statusbar_push_eq]
  · intro p c s h
    exact label_eq_top h

theorem statusbar_push_stacking_witness :
    (gtk_statusbar_push gtk_statusbar_init 1 "ready").1.messages =
      ⟨"ready", 1, gtk_statusbar_init.seq_message_id⟩ :: gtk_statusbar_init.messages ∧
    gtk_statusbar_init.label =
      (gtk_statusbar_init.messages.head?.map GtkStatusbarMsg.text).getD "" :=
  ⟨statusbar_push_stacking.1 gtk_statusbar_init 1 "ready",
   statusbar_push_stacking.2 0 0 gtk_statusbar_init StatusbarReach.init⟩

/-- Claim C2: gtk_statusbar_pop removes the first message from the top of
the stack whose context id equals the argument, leaving all other messages
in their original order; if no message has that context id the stack is
unchanged; in every case it then emits the text-popped signal carrying the
context id and text of the new topmost message, or context id 0 and NULL
text when the stack is empty (the popSignal of the resulting stack). -/
theorem statusbar_pop_spec (sb : GtkStatusbar) (context_id : Nat) :
    (((∀ m ∈ sb.messages, m.context_id ≠ context_id) ∧
        (gtk_statusbar_pop sb context_id).1.messages = sb.messages) ∨
      ∃ pre msg post,
        sb.messages = pre ++ msg :: post ∧
        (∀ m ∈ pre, m.context_id ≠ context_id) ∧
        msg.context_id = context_id ∧
        (gtk_statusbar_pop sb context_id).1.messages = pre ++ post) ∧
    (gtk_statusbar_pop sb context_id).2 =
      popSignal ((gtk_statusbar_pop sb context_id).1.messages) := by
  refine ⟨?_, by simp [gtk_statusbar_pop_eq]⟩
  rcases removeFirstBy_spec (fun m => m.context_id == context_id) sb.messages with
    ⟨hall, heq⟩ | ⟨pre, msg, post, hsplit, hpre, hmsg, heq⟩
  · left
    refine ⟨?_, by rw [gtk_statusbar_pop_eq]; exact heq⟩
    intro m hm
    simpa using hall m hm
  · right
    refine ⟨pre, msg, post, hsplit, ?_, by simpa using hmsg,
      by rw [gtk_statusbar_pop_eq]; exact heq⟩
    intro m hm
    simpa using hpre m hm

theorem statusbar_pop_spec_witness :
    (((∀ m ∈ gtk_statusbar_init.messages, m.context_id ≠ 1) ∧
        (gtk_statusbar_pop gtk_statusbar_init 1).1.messages =
          gtk_statusbar_init.messages) ∨
      ∃ pre msg post,
        gtk_statusbar_init.messages = pre ++ msg :: post ∧
        (∀ m ∈ pre, m.context_id ≠ 1) ∧
        msg.context_id = 1 ∧
        (gtk_statusbar_pop gtk_statusbar_init 1).1.messages = pre ++ post) ∧
    (gtk_statusbar_pop gtk_statusbar_init 1).2 =
      popSignal ((gtk_statusbar_pop gtk_statusbar_init 1).1.messages) :=
  statusbar_pop_spec gtk_statusbar_init 1

/-- Claim C3: for every statusbar state and every message_id greater than
0, gtk_statusbar_remove removes at most the single first message whose
context id and message id both match the arguments exactly; every message
whose context id or message id differs remains on the stack in its
original position and order. -/
theorem statusbar_remove_frame (sb : GtkStatusbar) (context_id message_id : Nat)
    (hpos : 0 < message_id) :
    ((∀ m ∈ sb.messages, ¬(m.context_id = context_id ∧ m.message_id = message_id)) ∧
      (gtk_statusbar_remove sb context_id message_id).1.messages = sb.messages) ∨
    ∃ pre msg post,
      sb.messages = pre ++ msg :: post ∧
      (∀ m ∈ pre, ¬(m.context_id = context_id ∧ m.message_id = message_id)) ∧
      msg.context_id = context_id ∧ msg.message_id = message_id ∧
      (gtk_statusbar_remove sb context_id message_id).1.messages = pre ++ post := by
  have hz : message_id ≠ 0 := Nat.pos_iff_ne_zero.mp hpos
  have hmsgs := gtk_statusbar_remove_messages sb context_id message_id hz
  rcases removeFirstBy_spec
      (fun m => m.context_id == context_id && m.message_id == message_id) sb.messages with
    ⟨hall, heq⟩ | ⟨pre, msg, post, hsplit, hpre, hmsg, heq⟩
  · left
    refine ⟨?_, by rw [hmsgs, heq]⟩
    intro m hm hcontra
    have := hall m hm
    simp [hcontra.1, hcontra.2] at this
  · right
    have hmsg' : msg.context_id = context_id ∧ msg.message_id = message_id := by
      simpa using hmsg
    refine ⟨pre, msg, post, hsplit, ?_, hmsg'.1, hmsg'.2, by rw [hmsgs, heq]⟩
    intro m hm hcontra
    have := hpre m hm
    simp [hcontra.1, hcontra.2] at this

theorem statusbar_remove_frame_witness :
    0 < 1 ∧
    (((∀ m ∈ gtk_statusbar_init.messages,
          ¬(m.context_id = 1 ∧ m.message_id = 1)) ∧
        (gtk_statusbar_remove gtk_statusbar_init 1 1).1.messages =
          gtk_statusbar_init.messages) ∨
      ∃ pre msg post,
        gtk_statusbar_init.messages = pre ++ msg :: post ∧
        (∀ m ∈ pre, ¬(m.context_id = 1 ∧ m.message_id = 1)) ∧
        msg.context_id = 1 ∧ msg.message_id = 1 ∧
        (gtk_statusbar_remove gtk_statusbar_init 1 1).1.messages = pre ++ post) :=
  ⟨Nat.one_pos, statusbar_remove_frame gtk_statusbar_init 1 1 Nat.one_pos⟩

/-- Claim C4: gtk_statusbar_remove_all removes exactly the messages whose
context id equals the argument, preserving the relative order of all
remaining messages, and the text-popped signal is emitted (carrying the
new topmost message, or 0 and NULL when the stack empties) if and only if
the topmost message before the call had that context id. -/
theorem statusbar_remove_all_spec (sb : GtkStatusbar) (context_id : Nat) :
    (gtk_statusbar_remove_all sb context_id).1.messages =
      sb.messages.filter (fun m => !(m.context_id == context_id)) ∧
    (gtk_statusbar_remove_all sb context_id).2 =
      (if sb.messages.head?.map GtkStatusbarMsg.context_id = some context_id
       then some (popSignal ((gtk_statusbar_remove_all sb context_id).1.messages))
       else none) := by
  cases hm : sb.messages with
  | nil => simp [gtk_statusbar_remove_all, hm]
  | cons top rest =>
    by_cases htop : (top.context_id == context_id) = true
    · have htop' : top.context_id = context_id := by simpa using htop
      constructor
      · simp [gtk_statusbar_remove_all, hm, htop, gtk_statusbar_pop_eq, removeFirstBy,
          htop']
      · simp [gtk_statusbar_remove_all, hm, htop, gtk_statusbar_pop_eq, removeFirstBy,
          htop']
    · have htop' : ¬ top.context_id = context_id := by simpa using htop
      constructor
      · simp [gtk_statusbar_remove_all, hm, htop, htop']
      · simp [gtk_statusbar_remove_all, hm, htop, htop']

theorem statusbar_remove_all_spec_witness :
    (gtk_statusbar_remove_all gtk_statusbar_init 1).1.messages =
      gtk_statusbar_init.messages.filter (fun m => !(m.context_id == 1)) ∧
    (gtk_statusbar_remove_all gtk_statusbar_init 1).2 =
      (if gtk_statusbar_init.messages.head?.map GtkStatusbarMsg.context_id = some 1
       then some (popSignal ((gtk_statusbar_remove_all gtk_statusbar_init 1).1.messages))
       else none) :=
  statusbar_remove_all_spec gtk_statusbar_init 1

/-- Claim C5: performing gtk_statusbar_push immediately followed by
gtk_statusbar_pop with the same context id leaves the message stack equal
to the stack before the push. -/
theorem statusbar_pop_push_inverse (sb : GtkStatusbar) (context_id : Nat)
    (text : String) :
    (gtk_statusbar_pop (gtk_statusbar_push sb context_id text).1 context_id).1.messages =
      sb.messages := by
  rw [gtk_statusbar_push_eq, gtk_statusbar_pop_eq]
  simp [removeFirstBy]

theorem statusbar_pop_push_inverse_witness :
    (gtk_statusbar_pop (gtk_statusbar_push gtk_statusbar_init 7 "busy").1 7).1.messages =
      gtk_statusbar_init.messages :=
  statusbar_pop_push_inverse gtk_statusbar_init 7 "busy"

/-!
Field preservation lemmas used by the counter invariants.
-/

theorem gtk_statusbar_pop_seq (sb : GtkStatusbar) (context_id : Nat) :
    (gtk_statusbar_pop sb context_id).1.seq_message_id = sb.seq_message_id := by
  rw [gtk_statusbar_pop_eq]

theorem gtk_statusbar_pop_msgs_sublist (sb : GtkStatusbar) (context_id : Nat) :
    List.Sublist (gtk_statusbar_pop sb context_id).1.messages sb.messages := by
  rw [gtk_statusbar_pop_eq]
  exact removeFirstBy_sublist _ _

theorem gtk_statusbar_remove_seq (sb : GtkStatusbar) (context_id message_id : Nat) :
    (gtk_statusbar_remove sb context_id message_id).1.seq_message_id =
      sb.seq_message_id := by
  unfold gtk_statusbar_remove
  by_cases h0 : message_id = 0
  · simp [h0]
  · cases hm : sb.messages with
    | nil => simp [h0, hm]
    | cons top rest =>
      by_cases htop : (top.context_id == context_id && top.message_id == message_id) = true
      · simp [h0, hm, htop, gtk_statusbar_pop_eq]
      · simp [h0, hm, htop]

theorem gtk_statusbar_remove_msgs_sublist (sb : GtkStatusbar)
    (context_id message_id : Nat) :
    List.Sublist (gtk_statusbar_remove sb context_id message_id).1.messages
      sb.messages := by
  by_cases h0 : message_id = 0
  · simp only [gtk_statusbar_remove, h0, if_true]
    exact List.Sublist.refl _
  · rw [gtk_statusbar_remove_messages sb context_id message_id h0]
    exact removeFirstBy_sublist _ _

theorem gtk_statusbar_remove_all_seq (sb : GtkStatusbar) (context_id : Nat) :
    (gtk_statusbar_remove_all sb context_id).1.seq_message_id = sb.seq_message_id := by
  unfold gtk_statusbar_remove_all
  cases hm : sb.messages with
  | nil => simp [hm]
  | cons top rest =>
    by_cases htop : (top.context_id == context_id) = true
    · simp [hm, htop, gtk_statusbar_pop_eq]
    · simp [hm, htop]

theorem gtk_statusbar_remove_all_messages (sb : GtkStatusbar) (context_id : Nat) :
    (gtk_statusbar_remove_all sb context_id).1.messages =
      sb.messages.filter (fun m => !(m.context_id == context_id)) := by
  cases hm : sb.messages with
  | nil => simp [gtk_statusbar_remove_all, hm]
  | cons top rest =>
    by_cases htop : (top.context_id == context_id) = true
    · simp [gtk_statusbar_remove_all, hm, htop, gtk_statusbar_pop_eq, removeFirstBy]
    · simp [gtk_statusbar_remove_all, hm, htop]

theorem gtk_statusbar_remove_all_msgs_sublist (sb : GtkStatusbar) (context_id : Nat) :
    List.Sublist (gtk_statusbar_remove_all sb context_id).1.messages sb.messages := by
  rw [gtk_statusbar_remove_all_messages]
  exact List.filter_sublist sb.messages

theorem gtk_statusbar_get_context_id_messages (sb : GtkStatusbar)
    (context_description : String) :
    (gtk_statusbar_get_context_id sb context_description).1.messages = sb.messages := by
  unfold gtk_statusbar_get_context_id
  by_cases hz : g_object_get_data sb.object_data (ctxKey context_description) = 0 <;>
    simp [hz]

theorem gtk_statusbar_get_context_id_seq_message (sb : GtkStatusbar)
    (context_description : String) :
    (gtk_statusbar_get_context_id sb context_description).1.seq_message_id =
      sb.seq_message_id := by
  unfold gtk_statusbar_get_context_id
  by_cases hz : g_object_get_data sb.object_data (ctxKey context_description) = 0 <;>
    simp [hz]

/-- Claim C9 (amended): the seq_message_id counter of a state reachable
with p pushes equals (1 + p) mod 2^32, and as long as fewer than 2^32
pushes have been performed the message ids on the stack are strictly
decreasing from the top (hence pairwise distinct), nonzero and at most p;
in particular successive pushes return strictly increasing ids starting at
1. The modulus restriction is forced: the guint counter wraps after 2^32
pushes (see the counterexample). -/
theorem statusbar_message_ids (p c : Nat) (s : GtkStatusbar)
    (h : StatusbarReach p c s) :
    s.seq_message_id = (1 + p) % UINT_MOD ∧
    (p < UINT_MOD →
      s.messages.Pairwise (fun a b => b.message_id < a.message_id) ∧
      ∀ m ∈ s.messages, 1 ≤ m.message_id ∧ m.message_id ≤ p) := by
  induction h with
  | init =>
    refine ⟨by norm_num [gtk_statusbar_init, UINT_MOD], fun _ => ⟨by simp [gtk_statusbar_init], ?_⟩⟩
    intro m hm
    simp [gtk_statusbar_init] at hm
  | push context_id text hr ih =>
    rename_i p' c' s'
    constructor
    · rw [gtk_statusbar_push_eq]
      show (s'.seq_message_id + 1) % UINT_MOD = (1 + (p' + 1)) % UINT_MOD
      rw [ih.1]
      simp only [UINT_MOD]
      omega
    · intro hp1
      have hp : p' < UINT_MOD := Nat.lt_of_succ_lt hp1
      obtain ⟨hpair, hbound⟩ := ih.2 hp
      have hseq : s'.seq_message_id = 1 + p' := by
        rw [ih.1]
        exact Nat.mod_eq_of_lt (by omega)
      rw [gtk_statusbar_push_eq]
      constructor
      · simp only [List.pairwise_cons]
        refine ⟨?_, hpair⟩
        intro b hb
        have := (hbound b hb).2
        simp only [hseq]
        omega
      · intro m hm
        rcases List.mem_cons.mp hm with rfl | hm
        · simp only [hseq]
          omega
        · have := hbound m hm
          omega
  | pop context_id hr ih =>
    rename_i p' c' s'
    refine ⟨by rw [gtk_statusbar_pop_seq]; exact ih.1, fun hp => ?_⟩
    obtain ⟨hpair, hbound⟩ := ih.2 hp
    have hsub := gtk_statusbar_pop_msgs_sublist s' context_id
    exact ⟨List.Pairwise.sublist hsub hpair, fun m hm => hbound m (hsub.subset hm)⟩
  | remove context_id message_id hr ih =>
    rename_i p' c' s'
    refine ⟨by rw [gtk_statusbar_remove_seq]; exact ih.1, fun hp => ?_⟩
    obtain ⟨hpair, hbound⟩ := ih.2 hp
    have hsub := gtk_statusbar_remove_msgs_sublist s' context_id message_id
    exact ⟨List.Pairwise.sublist hsub hpair, fun m hm => hbound m (hsub.subset hm)⟩
  | removeAll context_id hr ih =>
    rename_i p' c' s'
    refine ⟨by rw [gtk_statusbar_remove_all_seq]; exact ih.1, fun hp => ?_⟩
    obtain ⟨hpair, hbound⟩ := ih.2 hp
    have hsub := gtk_statusbar_remove_all_msgs_sublist s' context_id
    exact ⟨List.Pairwise.sublist hsub hpair, fun m hm => hbound m (hsub.subset hm)⟩
  | getContextId context_description hr ih =>
    refine ⟨by rw [gtk_statusbar_get_context_id_seq_message]; exact ih.1, fun hp => ?_⟩
    obtain ⟨hpair, hbound⟩ := ih.2 hp
    rw [gtk_statusbar_get_context_id_messages]
    exact ⟨hpair, hbound⟩

theorem statusbar_message_ids_witness :
    (gtk_statusbar_push gtk_statusbar_init 2 "boot").1.seq_message_id =
      (1 + 1) % UINT_MOD ∧
    (gtk_statusbar_push gtk_statusbar_init 2 "boot").1.messages.Pairwise
      (fun a b => b.message_id < a.message_id) :=
  ⟨(statusbar_message_ids 1 0 _ (StatusbarReach.push 2 "boot" StatusbarReach.init)).1,
   ((statusbar_message_ids 1 0 _ (StatusbarReach.push 2 "boot" StatusbarReach.init)).2
     (by norm_num [UINT_MOD])).1⟩

theorem gtk_statusbar_push_ret (sb : GtkStatusbar) (context_id : Nat) (text : String) :
    (gtk_statusbar_push sb context_id text).2 = sb.seq_message_id :=
  rfl

/-- Iterated gtk_statusbar_push from the initial state, used to exhibit
the wraparound of the guint seq_message_id counter. -/
def pushN : Nat → GtkStatusbar → GtkStatusbar
  | 0, sb => sb
  | n + 1, sb => (gtk_statusbar_push (pushN n sb) 1 "overflow").1

theorem pushN_seq (n : Nat) :
    (pushN n gtk_statusbar_init).seq_message_id = (1 + n) % UINT_MOD := by
  induction n with
  | zero => norm_num [pushN, gtk_statusbar_init, UINT_MOD]
  | succ n ih =>
    show (gtk_statusbar_push (pushN n gtk_statusbar_init) 1 "overflow").1.seq_message_id =
      (1 + (n + 1)) % UINT_MOD
    rw [gtk_statusbar_push_eq]
    show ((pushN n gtk_statusbar_init).seq_message_id + 1) % UINT_MOD =
      (1 + (n + 1)) % UINT_MOD
    rw [ih]
    simp only [UINT_MOD]
    omega

/-- Claim C9 counterexample: after 2^32 - 1 pushes the guint counter has
wrapped, so the next push returns message id 0 although the push before it
returned id 2^32 - 1: the ids returned by successive pushes are neither
strictly increasing nor nonzero on this reachable statusbar. -/
theorem statusbar_message_ids_cex :
    (gtk_statusbar_push (pushN (UINT_MOD - 1) gtk_statusbar_init) 1 "overflow").2 = 0 ∧
    (gtk_statusbar_push (pushN (UINT_MOD - 2) gtk_statusbar_init) 1 "overflow").2 =
      UINT_MOD - 1 := by
  constructor
  · rw [gtk_statusbar_push_ret, pushN_seq]
    norm_num [UINT_MOD]
  · rw [gtk_statusbar_push_ret, pushN_seq]
    norm_num [UINT_MOD]

/-!
Lemmas about the object data table used by gtk_statusbar_get_context_id.
-/

theorem g_object_get_data_cons (k : String) (v : Nat) (l : List (String × Nat))
    (key : String) :
    g_object_get_data ((k, v) :: l) key =
      if k == key then v else g_object_get_data l key := by
  by_cases h : (k == key) = true
  · simp [g_object_get_data, List.find?_cons, h]
  · simp [g_object_get_data, List.find?_cons, h]

theorem get_data_zero_of_no_key (l : List (String × Nat)) (key : String)
    (h : ∀ e ∈ l, e.1 ≠ key) : g_object_get_data l key = 0 := by
  have hf : l.find? (fun kv => kv.1 == key) = none :=
    List.find?_eq_none.mpr (fun e he => by simpa using h e he)
  unfold g_object_get_data
  rw [hf]

theorem find?_eq_none_of_get_zero (l : List (String × Nat)) (key : String)
    (hvals : ∀ v ∈ l.map Prod.snd, 1 ≤ v)
    (h : g_object_get_data l key = 0) :
    l.find? (fun kv => kv.1 == key) = none := by
  cases hf : l.find? (fun kv => kv.1 == key) with
  | none => rfl
  | some e =>
    have he : e ∈ l := List.mem_of_find?_eq_some hf
    have h1 : 1 ≤ e.2 := hvals e.2 (List.mem_map_of_mem Prod.snd he)
    have hval : g_object_get_data l key = e.2 := by
      unfold g_object_get_data
      rw [hf]
    rw [hval] at h
    omega

theorem eraseP_eq_self_of_find?_none (l : List (String × Nat)) (key : String)
    (h : l.find? (fun kv => kv.1 == key) = none) :
    l.eraseP (fun kv => kv.1 == key) = l :=
  List.eraseP_of_forall_not (by simpa using List.find?_eq_none.mp h)

theorem get_data_mem (l : List (String × Nat)) (key : String)
    (h : g_object_get_data l key ≠ 0) :
    g_object_get_data l key ∈ l.map Prod.snd := by
  cases hf : l.find? (fun kv => kv.1 == key) with
  | none =>
    exfalso
    apply h
    unfold g_object_get_data
    rw [hf]
  | some e =>
    have he : e ∈ l := List.mem_of_find?_eq_some hf
    unfold g_object_get_data
    rw [hf]
    exact List.mem_map_of_mem Prod.snd he

theorem get_data_ne (l : List (String × Nat)) (k₁ k₂ : String) (hk : k₁ ≠ k₂)
    (hnd : (l.map Prod.snd).Nodup)
    (h₁ : g_object_get_data l k₁ ≠ 0) (h₂ : g_object_get_data l k₂ ≠ 0) :
    g_object_get_data l k₁ ≠ g_object_get_data l k₂ := by
  induction l with
  | nil => exact absurd rfl h₁
  | cons e l ih =>
    obtain ⟨k, v⟩ := e
    have hnd₂ : (l.map Prod.snd).Nodup := (List.nodup_cons.mp (by simpa using hnd)).2
    have hnot : v ∉ l.map Prod.snd := (List.nodup_cons.mp (by simpa using hnd)).1
    simp only [g_object_get_data_cons] at h₁ h₂ ⊢
    by_cases e₁ : (k == k₁) = true <;> by_cases e₂ : (k == k₂) = true
    · exfalso
      apply hk
      have a₁ : k = k₁ := by simpa using e₁
      have a₂ : k = k₂ := by simpa using e₂
      rw [← a₁, a₂]
    · simp only [e₁, e₂, if_true, Bool.false_eq_true, if_false] at h₂ ⊢
      have hmem := get_data_mem l k₂ h₂
      intro heq
      exact hnot (heq ▸ hmem)
    · simp only [e₁, e₂, if_true, Bool.false_eq_true, if_false] at h₁ ⊢
      have hmem := get_data_mem l k₁ h₁
      intro heq
      exact hnot (heq ▸ hmem)
    · simp only [e₁, e₂, Bool.false_eq_true, if_false] at h₁ h₂ ⊢
      exact ih hnd₂ h₁ h₂

theorem mem_set_data (l : List (String × Nat)) (key : String) (v : Nat)
    (e : String × Nat) (he : e ∈ g_object_set_data l key v) :
    e = (key, v) ∨ e ∈ l := by
  unfold g_object_set_data at he
  by_cases hv : v = 0
  · rw [if_pos hv] at he
    exact Or.inr ((List.eraseP_sublist l).subset he)
  · rw [if_neg hv] at he
    rcases List.mem_cons.mp he with rfl | he
    · exact Or.inl rfl
    · exact Or.inr ((List.eraseP_sublist l).subset he)

theorem ctxKey_inj {d d' : String} (h : ctxKey d = ctxKey d') : d = d' := by
  unfold ctxKey at h
  have h₂ := congrArg String.data h
  rw [String.data_append, String.data_append] at h₂
  have h₃ : d.data = d'.data := List.append_cancel_left h₂
  exact String.ext h₃

theorem ctxKey_descN_length (i : Nat) :
    (ctxKey (String.mk (List.replicate i 'a'))).length = 23 + i := by
  simp [ctxKey, String.length_append, String.length]
  omega

/-!
Branch equations for gtk_statusbar_get_context_id.
-/

theorem get_context_id_found (sb : GtkStatusbar) (d : String)
    (hz : g_object_get_data sb.object_data (ctxKey d) ≠ 0) :
    gtk_statusbar_get_context_id sb d =
      (sb, g_object_get_data sb.object_data (ctxKey d)) := by
  unfold gtk_statusbar_get_context_id
  rw [if_neg hz]

theorem get_context_id_ret_fresh (sb : GtkStatusbar) (d : String)
    (hz : g_object_get_data sb.object_data (ctxKey d) = 0) :
    (gtk_statusbar_get_context_id sb d).2 = sb.seq_context_id := by
  unfold gtk_statusbar_get_context_id
  rw [if_pos hz]

theorem get_context_id_state_fresh (sb : GtkStatusbar) (d : String)
    (hz : g_object_get_data sb.object_data (ctxKey d) = 0) :
    (gtk_statusbar_get_context_id sb d).1 =
      { sb with
          seq_context_id := (sb.seq_context_id + 1) % UINT_MOD
          object_data := g_object_set_data sb.object_data (ctxKey d) sb.seq_context_id
          keys := ctxKey d :: sb.keys } := by
  unfold gtk_statusbar_get_context_id
  rw [if_pos hz]

/-- Invariant of the context-id subsystem in a state reachable with at
most c calls to gtk_statusbar_get_context_id: some a ≤ c ids have been
assigned, the counter holds (1 + a) mod 2^32 and, as long as the counter
has not wrapped, the stored ids are exactly nonzero values bounded by a
and pairwise distinct. -/
def CtxInv (c : Nat) (sb : GtkStatusbar) : Prop :=
  ∃ a, a ≤ c ∧ sb.seq_context_id = (1 + a) % UINT_MOD ∧
    (a + 1 ≤ UINT_MOD →
      (∀ v ∈ sb.object_data.map Prod.snd, 1 ≤ v ∧ v ≤ a) ∧
      (sb.object_data.map Prod.snd).Nodup)

theorem CtxInv_of_eq (c : Nat) (sb sb' : GtkStatusbar)
    (h1 : sb'.seq_context_id = sb.seq_context_id)
    (h2 : sb'.object_data = sb.object_data) (h : CtxInv c sb) : CtxInv c sb' := by
  obtain ⟨a, hac, hseq, hdata⟩ := h
  exact ⟨a, hac, by rw [h1, hseq], by rw [h2]; exact hdata⟩

theorem gtk_statusbar_remove_ctx_fields (sb : GtkStatusbar)
    (context_id message_id : Nat) :
    (gtk_statusbar_remove sb context_id message_id).1.seq_context_id =
      sb.seq_context_id ∧
    (gtk_statusbar_remove sb context_id message_id).1.object_data = sb.object_data := by
  unfold gtk_statusbar_remove
  by_cases h0 : message_id = 0
  · simp [h0]
  · cases hm : sb.messages with
    | nil => simp [h0, hm]
    | cons top rest =>
      by_cases htop : (top.context_id == context_id && top.message_id == message_id) = true
      · simp [h0, hm, htop, gtk_statusbar_pop_eq]
      · simp [h0, hm, htop]

theorem gtk_statusbar_remove_all_ctx_fields (sb : GtkStatusbar) (context_id : Nat) :
    (gtk_statusbar_remove_all sb context_id).1.seq_context_id = sb.seq_context_id ∧
    (gtk_statusbar_remove_all sb context_id).1.object_data = sb.object_data := by
  unfold gtk_statusbar_remove_all
  cases hm : sb.messages with
  | nil => simp [hm]
  | cons top rest =>
    by_cases htop : (top.context_id == context_id) = true
    · simp [hm, htop, gtk_statusbar_pop_eq]
    · simp [hm, htop]

theorem CtxInv_get_context_id (c : Nat) (sb : GtkStatusbar) (d : String)
    (h : CtxInv c sb) : CtxInv (c + 1) (gtk_statusbar_get_context_id sb d).1 := by
  obtain ⟨a, hac, hseq, hdata⟩ := h
  by_cases hz : g_object_get_data sb.object_data (ctxKey d) = 0
  · rw [get_context_id_state_fresh sb d hz]
    refine ⟨a + 1, by omega, ?_, ?_⟩
    · show (sb.seq_context_id + 1) % UINT_MOD = (1 + (a + 1)) % UINT_MOD
      rw [hseq]
      simp only [UINT_MOD]
      omega
    · intro hb
      have hb' : a + 1 ≤ UINT_MOD := by omega
      obtain ⟨hvals, hnd⟩ := hdata hb'
      have hsval : sb.seq_context_id = 1 + a := by
        rw [hseq]
        exact Nat.mod_eq_of_lt (by omega)
      have hfind : sb.object_data.find? (fun kv => kv.1 == ctxKey d) = none :=
        find?_eq_none_of_get_zero _ _ (fun v hv => (hvals v hv).1) hz
      show (∀ v ∈ (g_object_set_data sb.object_data (ctxKey d)
          sb.seq_context_id).map Prod.snd, 1 ≤ v ∧ v ≤ a + 1) ∧
        ((g_object_set_data sb.object_data (ctxKey d)
          sb.seq_context_id).map Prod.snd).Nodup
      unfold g_object_set_data
      rw [if_neg (by rw [hsval]; omega), eraseP_eq_self_of_find?_none _ _ hfind]
      constructor
      · intro v hv
        have hv2 : v = sb.seq_context_id ∨ ∃ k', (k', v) ∈ sb.object_data := by
          simpa using hv
        rcases hv2 with rfl | ⟨k', hv'⟩
        · rw [hsval]
          omega
        · have := hvals v (List.mem_map_of_mem Prod.snd hv')
          omega
      · refine List.nodup_cons.mpr ⟨?_, hnd⟩
        intro hmem
        have := (hvals _ hmem).2
        rw [hsval] at this
        omega
  · rw [get_context_id_found sb d hz]
    exact ⟨a, by omega, hseq, hdata⟩

/-- The context-id invariant holds in every reachable state. -/
theorem ctx_invariant (p c : Nat) (s : GtkStatusbar) (h : StatusbarReach p c s) :
    CtxInv c s := by
  induction h with
  | init =>
    refine ⟨0, Nat.le_refl 0, by norm_num [gtk_statusbar_init, UINT_MOD], fun _ => ?_⟩
    exact ⟨by simp [gtk_statusbar_init], by simp [gtk_statusbar_init]⟩
  | push context_id text hr ih =>
    exact CtxInv_of_eq _ _ _ (by rw [gtk_statusbar_push_eq]) (by rw [gtk_statusbar_push_eq]) ih
  | pop context_id hr ih =>
    exact CtxInv_of_eq _ _ _ (by rw [gtk_statusbar_pop_eq]) (by rw [gtk_statusbar_pop_eq]) ih
  | remove context_id message_id hr ih =>
    rename_i p' c' s'
    exact CtxInv_of_eq _ _ _ (gtk_statusbar_remove_ctx_fields s' context_id message_id).1
      (gtk_statusbar_remove_ctx_fields s' context_id message_id).2 ih
  | removeAll context_id hr ih =>
    rename_i p' c' s'
    exact CtxInv_of_eq _ _ _ (gtk_statusbar_remove_all_ctx_fields s' context_id).1
      (gtk_statusbar_remove_all_ctx_fields s' context_id).2 ih
  | getContextId context_description hr ih =>
    exact CtxInv_get_context_id _ _ context_description ih

/-- Claim C8 (amended): on every reachable statusbar, provided the number
of gtk_statusbar_get_context_id calls made so far keeps the guint counter
from wrapping (at most 2^32 - 3 calls), the function returns a nonzero id,
calling it twice with the same description returns the same id, a
description whose key is absent from the object data is assigned the
current value of the seq_context_id counter (which starts at 1), and a
different description never receives the same id. The wrap restriction is
forced by the counterexample below. -/
theorem statusbar_get_context_id_spec (p c : Nat) (s : GtkStatusbar)
    (hreach : StatusbarReach p c s) (hc : c + 2 < UINT_MOD) (d : String) :
    1 ≤ (gtk_statusbar_get_context_id s d).2 ∧
    (gtk_statusbar_get_context_id (gtk_statusbar_get_context_id s d).1 d).2 =
      (gtk_statusbar_get_context_id s d).2 ∧
    (g_object_get_data s.object_data (ctxKey d) = 0 →
      (gtk_statusbar_get_context_id s d).2 = s.seq_context_id) ∧
    ∀ d' : String, d' ≠ d →
      (gtk_statusbar_get_context_id (gtk_statusbar_get_context_id s d).1 d').2 ≠
        (gtk_statusbar_get_context_id s d).2 := by
  obtain ⟨a, hac, hseq, hdata⟩ := ctx_invariant p c s hreach
  have haM : a + 2 < 2 ^ 32 := by
    have := hc
    simp only [UINT_MOD] at this
    omega
  have hb' : a + 1 ≤ UINT_MOD := by
    simp only [UINT_MOD]
    omega
  obtain ⟨hvals, hnd⟩ := hdata hb'
  have hsval : s.seq_context_id = 1 + a := by
    rw [hseq]
    exact Nat.mod_eq_of_lt (by simp only [UINT_MOD]; omega)
  by_cases hz : g_object_get_data s.object_data (ctxKey d) = 0
  · -- the description is fresh: an id is assigned
    have hret := get_context_id_ret_fresh s d hz
    have hstate := get_context_id_state_fresh s d hz
    have hfind : s.object_data.find? (fun kv => kv.1 == ctxKey d) = none :=
      find?_eq_none_of_get_zero _ _ (fun v hv => (hvals v hv).1) hz
    have hdata1 : (gtk_statusbar_get_context_id s d).1.object_data =
        (ctxKey d, s.seq_context_id) :: s.object_data := by
      rw [hstate]
      show g_object_set_data s.object_data (ctxKey d) s.seq_context_id = _
      unfold g_object_set_data
      rw [if_neg (by rw [hsval]; omega), eraseP_eq_self_of_find?_none _ _ hfind]
    have hseq1 : (gtk_statusbar_get_context_id s d).1.seq_context_id =
        (s.seq_context_id + 1) % UINT_MOD := by
      rw [hstate]
    have hlook : g_object_get_data (gtk_statusbar_get_context_id s d).1.object_data
        (ctxKey d) = s.seq_context_id := by
      rw [hdata1, g_object_get_data_cons]
      simp
    refine ⟨by rw [hret, hsval]; omega, ?_, fun _ => hret, ?_⟩
    · have hz1 : g_object_get_data (gtk_statusbar_get_context_id s d).1.object_data
          (ctxKey d) ≠ 0 := by
        rw [hlook, hsval]
        omega
      rw [get_context_id_found _ _ hz1, hret]
      show g_object_get_data (gtk_statusbar_get_context_id s d).1.object_data
          (ctxKey d) = s.seq_context_id
      exact hlook
    · intro d' hd'
      have hkne : ctxKey d ≠ ctxKey d' := fun hcontra => hd' (ctxKey_inj hcontra).symm
      have hbeqf : (ctxKey d == ctxKey d') = false := beq_eq_false_iff_ne.mpr hkne
      have hlook' : g_object_get_data (gtk_statusbar_get_context_id s d).1.object_data
          (ctxKey d') = g_object_get_data s.object_data (ctxKey d') := by
        rw [hdata1, g_object_get_data_cons, hbeqf]
        simp
      by_cases hz' : g_object_get_data s.object_data (ctxKey d') = 0
      · have hz1' : g_object_get_data (gtk_statusbar_get_context_id s d).1.object_data
            (ctxKey d') = 0 := by
          rw [hlook']
          exact hz'
        rw [get_context_id_ret_fresh _ _ hz1', hseq1, hret, hsval]
        simp only [UINT_MOD]
        omega
      · have hz1' : g_object_get_data (gtk_statusbar_get_context_id s d).1.object_data
            (ctxKey d') ≠ 0 := by
          rw [hlook']
          exact hz'
        have hvle : g_object_get_data s.object_data (ctxKey d') ≤ a :=
          (hvals _ (get_data_mem _ _ hz')).2
        rw [get_context_id_found _ _ hz1', hret, hsval]
        show g_object_get_data (gtk_statusbar_get_context_id s d).1.object_data
            (ctxKey d') ≠ 1 + a
        rw [hlook']
        omega
  · -- the description was already assigned an id
    have hfound := get_context_id_found s d hz
    have hst : (gtk_statusbar_get_context_id s d).1 = s := by
      rw [hfound]
    have hr2 : (gtk_statusbar_get_context_id s d).2 =
        g_object_get_data s.object_data (ctxKey d) := by
      rw [hfound]
    have hvmem := get_data_mem _ _ hz
    have hv1 := (hvals _ hvmem).1
    have hv2 := (hvals _ hvmem).2
    refine ⟨by rw [hr2]; exact hv1, by rw [hst], fun h0 => absurd h0 hz, ?_⟩
    intro d' hd'
    rw [hst]
    by_cases hz' : g_object_get_data s.object_data (ctxKey d') = 0
    · rw [get_context_id_ret_fresh _ _ hz', hr2, hsval]
      have := hv2
      omega
    · rw [get_context_id_found _ _ hz', hr2]
      have hkne : ctxKey d' ≠ ctxKey d := fun hcontra => hd' (ctxKey_inj hcontra)
      exact get_data_ne s.object_data (ctxKey d') (ctxKey d) hkne hnd hz' hz

theorem statusbar_get_context_id_spec_witness :
    1 ≤ (gtk_statusbar_get_context_id gtk_statusbar_init "channel").2 ∧
    (gtk_statusbar_get_context_id
        (gtk_statusbar_get_context_id gtk_statusbar_init "channel").1 "channel").2 =
      (gtk_statusbar_get_context_id gtk_statusbar_init "channel").2 ∧
    (gtk_statusbar_get_context_id
        (gtk_statusbar_get_context_id gtk_statusbar_init "channel").1 "other").2 ≠
      (gtk_statusbar_get_context_id gtk_statusbar_init "channel").2 :=
  have h := statusbar_get_context_id_spec 0 0 gtk_statusbar_init StatusbarReach.init
    (by norm_num [UINT_MOD]) "channel"
  ⟨h.1, h.2.1, h.2.2.2 "other" (by decide)⟩

/-- The i-th context description used to exhibit counter wraparound: a
string of i letters, so distinct indices give distinct descriptions. -/
def descN (i : Nat) : String := String.mk (List.replicate i 'a')

/-- Iterated gtk_statusbar_get_context_id on pairwise distinct fresh
descriptions, starting from the initial statusbar. -/
def ctxFold : Nat → GtkStatusbar → GtkStatusbar
  | 0, sb => sb
  | n + 1, sb => (gtk_statusbar_get_context_id (ctxFold n sb) (descN n)).1

theorem ctxKey_descN_ne (m n : Nat) (h : m ≠ n) :
    ctxKey (descN m) ≠ ctxKey (descN n) := by
  intro he
  apply h
  have h1 : (ctxKey (descN m)).length = 23 + m := ctxKey_descN_length m
  have h2 : (ctxKey (descN n)).length = 23 + n := ctxKey_descN_length n
  have hlen := congrArg String.length he
  rw [h1, h2] at hlen
  omega

theorem ctxFold_spec (n : Nat) :
    (ctxFold n gtk_statusbar_init).seq_context_id = (1 + n) % UINT_MOD ∧
    ∀ m, n ≤ m → ∀ e ∈ (ctxFold n gtk_statusbar_init).object_data,
      e.1 ≠ ctxKey (descN m) := by
  induction n with
  | zero =>
    constructor
    · norm_num [ctxFold, gtk_statusbar_init, UINT_MOD]
    · intro m _ e he
      simp [ctxFold, gtk_statusbar_init] at he
  | succ n ih =>
    obtain ⟨hseq, hkeys⟩ := ih
    have hz : g_object_get_data (ctxFold n gtk_statusbar_init).object_data
        (ctxKey (descN n)) = 0 :=
      get_data_zero_of_no_key _ _ (fun e he => hkeys n (Nat.le_refl n) e he)
    have hstep : ctxFold (n + 1) gtk_statusbar_init =
        (gtk_statusbar_get_context_id (ctxFold n gtk_statusbar_init) (descN n)).1 := rfl
    constructor
    · rw [hstep, get_context_id_state_fresh _ _ hz]
      show ((ctxFold n gtk_statusbar_init).seq_context_id + 1) % UINT_MOD = _
      rw [hseq]
      simp only [UINT_MOD]
      omega
    · intro m hm e he
      rw [hstep, get_context_id_state_fresh _ _ hz] at he
      have he' : e ∈ g_object_set_data (ctxFold n gtk_statusbar_init).object_data
          (ctxKey (descN n)) (ctxFold n gtk_statusbar_init).seq_context_id := he
      rcases mem_set_data _ _ _ _ he' with rfl | hmem
      · show ctxKey (descN n) ≠ ctxKey (descN m)
        exact ctxKey_descN_ne n m (by omega)
      · exact hkeys m (by omega) e hmem

/-- Claim C8 counterexample: after 2^32 - 1 distinct descriptions have
been registered on a reachable statusbar, the guint seq_context_id counter
has wrapped to 0, and the next fresh description is assigned context id 0:
gtk_statusbar_get_context_id then returns an id that is not nonzero (and
a repeated call would not return the same id, since 0 is never found in
the object data), refuting the claim as stated. -/
theorem statusbar_get_context_id_cex :
    (gtk_statusbar_get_context_id (ctxFold (UINT_MOD - 1) gtk_statusbar_init)
      (descN (UINT_MOD - 1))).2 = 0 := by
  obtain ⟨hseq, hkeys⟩ := ctxFold_spec (UINT_MOD - 1)
  have hz : g_object_get_data
      (ctxFold (UINT_MOD - 1) gtk_statusbar_init).object_data
      (ctxKey (descN (UINT_MOD - 1))) = 0 :=
    get_data_zero_of_no_key _ _ (hkeys (UINT_MOD - 1) (Nat.le_refl _))
  rw [get_context_id_ret_fresh _ _ hz, hseq]
  norm_num [UINT_MOD]

/-!
Claims about gtk_color_scale_snapshot_trough.
-/

theorem hueRow_eq_replicate (hsv2rgb : ℚ → ℚ → ℚ → ℚ × ℚ × ℚ) (h : ℚ) (w : Nat) :
    hueRow hsv2rgb h w = List.replicate w (huePixel hsv2rgb h) := by
  unfold hueRow huePixel
  rw [List.map_const', List.length_range]

/-- Claim C6: for a hue color scale with width and height greater than 1,
the trough snapshot is a single width-by-height RGB texture in which every
pixel of row hue_y carries the same color, obtained by converting the hue
CLAMP (hue_y / (height - 1)) 0 1 with saturation 1 and value 1 to RGB and
clamping each channel scaled by 255 into 0..255; the hue is 0 in the top
row and 1 in the bottom row. -/
theorem color_scale_hue_trough (hsv2rgb : ℚ → ℚ → ℚ → ℚ × ℚ × ℚ)
    (scale : GtkColorScale) (orientation : GtkOrientation) (dir : GtkTextDirection)
    (x y width height : ℤ) (hty : scale.type = GtkColorScaleType.hue)
    (hw : 1 < width) (hh : 1 < height) :
    gtk_color_scale_snapshot_trough hsv2rgb scale orientation dir x y width height =
      [RenderNode.texture width height
        ((List.range height.toNat).map (fun hue_y =>
          List.replicate width.toNat (huePixel hsv2rgb (hueH height hue_y))))
        ⟨(x : ℚ), (y : ℚ), (width : ℚ), (height : ℚ)⟩] ∧
    hueH height 0 = 0 ∧
    hueH height (height.toNat - 1) = 1 := by
  refine ⟨?_, ?_, ?_⟩
  · unfold gtk_color_scale_snapshot_trough
    rw [if_neg (by omega : ¬(width ≤ 1 ∨ height ≤ 1)), if_pos hty]
    simp only [hueRow_eq_replicate]
    rfl
  · unfold hueH CLAMP
    norm_num
  · unfold hueH
    have hq : ((height.toNat - 1 : Nat) : ℚ) = (height : ℚ) - 1 := by
      have hz : ((height.toNat - 1 : Nat) : ℤ) = height - 1 := by omega
      have h4 := congrArg (fun z : ℤ => (z : ℚ)) hz
      push_cast at h4
      exact h4
    rw [hq]
    have h1 : (height : ℚ) ≠ 1 := by
      intro hcontra
      have : height = 1 := by exact_mod_cast hcontra
      omega
    have hne : ((height : ℚ) - 1) ≠ 0 := sub_ne_zero.mpr h1
    rw [mul_one_div, div_self hne]
    unfold CLAMP
    norm_num

/-- Claim C7: for an alpha color scale with width and height greater than
1, the trough snapshot paints the checkerboard backdrop and appends over
the trough rectangle a two-stop linear gradient whose stops are the
currently set color with alpha 0 at offset 0 and with alpha 1 at offset 1;
for a horizontal scale in right-to-left text direction the gradient start
and end points are swapped, so alpha increases from right to left. -/
theorem color_scale_alpha_trough (hsv2rgb : ℚ → ℚ → ℚ → ℚ × ℚ × ℚ)
    (scale : GtkColorScale) (color : GdkRGBA)
    (orientation : GtkOrientation) (dir : GtkTextDirection)
    (x y width height : ℤ) (hty : scale.type = GtkColorScaleType.alpha)
    (hw : 1 < width) (hh : 1 < height) :
    gtk_color_scale_snapshot_trough hsv2rgb (gtk_color_scale_set_rgba scale color)
        orientation dir x y width height =
      [RenderNode.cairoCheckered ⟨(x : ℚ), (y : ℚ), (width : ℚ), (height : ℚ)⟩,
       RenderNode.linearGradient ⟨(x : ℚ), (y : ℚ), (width : ℚ), (height : ℚ)⟩
         (if orientation = GtkOrientation.horizontal ∧ dir = GtkTextDirection.rtl then
            ⟨(x : ℚ) + (width : ℚ), (y : ℚ)⟩
          else ⟨(x : ℚ), (y : ℚ)⟩)
         (if orientation = GtkOrientation.horizontal ∧ dir = GtkTextDirection.rtl then
            ⟨(x : ℚ), (y : ℚ)⟩
          else ⟨(x : ℚ) + (width : ℚ), (y : ℚ)⟩)
         [⟨0, ⟨color.red, color.green, color.blue, 0⟩⟩,
          ⟨1, ⟨color.red, color.green, color.blue, 1⟩⟩]] := by
  have hty' : (gtk_color_scale_set_rgba scale color).type = GtkColorScaleType.alpha := hty
  unfold gtk_color_scale_snapshot_trough
  rw [if_neg (by omega : ¬(width ≤ 1 ∨ height ≤ 1)),
    if_neg (by simp [gtk_color_scale_set_rgba, hty]), if_pos hty']
  by_cases hcond : orientation = GtkOrientation.horizontal ∧ dir = GtkTextDirection.rtl
  · simp [hcond, gtk_color_scale_set_rgba]
  · simp [hcond, gtk_color_scale_set_rgba]

/-- Claim C10: the trough snapshot returns without drawing anything when
width or height is at most 1; consequently in the hue branch, which runs
only for height greater than 1, the divisor height - 1 is nonzero and
1 / (height - 1) is never a division by zero. -/
theorem color_scale_trough_guard (hsv2rgb : ℚ → ℚ → ℚ → ℚ × ℚ × ℚ)
    (scale : GtkColorScale) (orientation : GtkOrientation) (dir : GtkTextDirection)
    (x y width height : ℤ) :
    (width ≤ 1 ∨ height ≤ 1 →
      gtk_color_scale_snapshot_trough hsv2rgb scale orientation dir x y width height
        = []) ∧
    (1 < height → ((height : ℚ) - 1) ≠ 0) := by
  constructor
  · intro hdeg
    unfold gtk_color_scale_snapshot_trough
    rw [if_pos hdeg]
  · intro hh
    have h1 : (height : ℚ) ≠ 1 := by
      intro hcontra
      have : height = 1 := by exact_mod_cast hcontra
      omega
    exact sub_ne_zero.mpr h1

/-- Sample HSV conversion and scales used by the witnesses below. -/
def hsvSample : ℚ → ℚ → ℚ → ℚ × ℚ × ℚ := fun _ _ _ => (1, 0, 0)

def hueScaleSample : GtkColorScale := ⟨⟨0, 0, 0, 1⟩, GtkColorScaleType.hue⟩

def alphaScaleSample : GtkColorScale := ⟨⟨0, 0, 0, 1⟩, GtkColorScaleType.alpha⟩

theorem color_scale_hue_trough_witness :
    gtk_color_scale_snapshot_trough hsvSample hueScaleSample GtkOrientation.horizontal
        GtkTextDirection.ltr 0 0 2 3 =
      [RenderNode.texture 2 3
        ((List.range (3 : ℤ).toNat).map (fun hue_y =>
          List.replicate (2 : ℤ).toNat (huePixel hsvSample (hueH 3 hue_y))))
        ⟨((0 : ℤ) : ℚ), ((0 : ℤ) : ℚ), ((2 : ℤ) : ℚ), ((3 : ℤ) : ℚ)⟩] ∧
    hueH 3 0 = 0 ∧
    hueH 3 ((3 : ℤ).toNat - 1) = 1 :=
  color_scale_hue_trough hsvSample hueScaleSample GtkOrientation.horizontal
    GtkTextDirection.ltr 0 0 2 3 rfl (by norm_num) (by norm_num)

theorem color_scale_alpha_trough_witness :
    gtk_color_scale_snapshot_trough hsvSample
        (gtk_color_scale_set_rgba alphaScaleSample ⟨1/2, 1/3, 1/4, 1⟩)
        GtkOrientation.horizontal GtkTextDirection.rtl 0 0 4 2 =
      [RenderNode.cairoCheckered
         ⟨((0 : ℤ) : ℚ), ((0 : ℤ) : ℚ), ((4 : ℤ) : ℚ), ((2 : ℤ) : ℚ)⟩,
       RenderNode.linearGradient
         ⟨((0 : ℤ) : ℚ), ((0 : ℤ) : ℚ), ((4 : ℤ) : ℚ), ((2 : ℤ) : ℚ)⟩
         (if GtkOrientation.horizontal = GtkOrientation.horizontal ∧
             GtkTextDirection.rtl = GtkTextDirection.rtl then
            ⟨((0 : ℤ) : ℚ) + ((4 : ℤ) : ℚ), ((0 : ℤ) : ℚ)⟩
          else ⟨((0 : ℤ) : ℚ), ((0 : ℤ) : ℚ)⟩)
         (if GtkOrientation.horizontal = GtkOrientation.horizontal ∧
             GtkTextDirection.rtl = GtkTextDirection.rtl then
            ⟨((0 : ℤ) : ℚ), ((0 : ℤ) : ℚ)⟩
          else ⟨((0 : ℤ) : ℚ) + ((4 : ℤ) : ℚ), ((0 : ℤ) : ℚ)⟩)
         [⟨0, ⟨(1/2 : ℚ), (1/3 : ℚ), (1/4 : ℚ), 0⟩⟩,
          ⟨1, ⟨(1/2 : ℚ), (1/3 : ℚ), (1/4 : ℚ), 1⟩⟩]] :=
  color_scale_alpha_trough hsvSample alphaScaleSample ⟨1/2, 1/3, 1/4, 1⟩
    GtkOrientation.horizontal GtkTextDirection.rtl 0 0 4 2 rfl
    (by norm_num) (by norm_num)

theorem color_scale_trough_guard_witness :
    gtk_color_scale_snapshot_trough hsvSample hueScaleSample GtkOrientation.horizontal
        GtkTextDirection.ltr 0 0 1 5 = [] ∧
    (((5 : ℤ) : ℚ) - 1) ≠ 0 :=
  ⟨(color_scale_trough_guard hsvSample hueScaleSample GtkOrientation.horizontal
      GtkTextDirection.ltr 0 0 1 5).1 (Or.inl (by norm_num)),
   (color_scale_trough_guard hsvSample hueScaleSample GtkOrientation.horizontal
      GtkTextDirection.ltr 0 0 1 5).2 (by norm_num)⟩
